import Mathlib

/-!
Shallow embedding of the x708 power-management supervisor
(src/rpi-x708pwm.py) for verifying its specification.

Modelling choices:
* Python floats are modelled as rationals (ℚ); the claims under scrutiny
  are exact arithmetic identities and order comparisons, which floats of
  these magnitudes realise exactly in the same way.
* I2C register reads are modelled by their raw 16-bit word value
  (a `Nat`), exactly as `bus.read_word_data` hands them to the script.
* The temperature file descriptor is `Option (Option Int)`:
  `none` means the file could not be opened at startup
  (`open_file` returned `None`), `some c` means the file is open and a
  `readline` followed by `int(...)` parses to `c : Option Int`
  (`none` when the line is not a well-formed integer, in which case
  Python raises `ValueError` inside the `try` block).
* Side effects (stdout prints, stderr reports, GPIO device construction,
  callback registration) are made explicit as data in result structures,
  and one cycle of the monitor loop is reified as a list of events so
  ordering claims can be stated.
-/

/-- Byte swap of a 16-bit word:
`struct.unpack("<H", struct.pack(">H", read))[0]` in the source
(big-endian pack gives bytes `[w / 256, w % 256]`, little-endian unpack
reads them back as `low + 256 * high`). -/
def byteswap16 (w : Nat) : Nat :=
  (w % 256) * 256 + (w / 256) % 256

/-- `read_voltage` (src lines 157-161): byte-swap the raw word at
register 2, then convert by `swapped * 1.25 / 1000 / 16` volts. -/
def read_voltage (read : Nat) : ℚ :=
  (byteswap16 read : ℚ) * (125 / 100) / 1000 / 16

/-- `read_capacity` (src lines 164-168): byte-swap the raw word at
register 4, then convert by `swapped / 256` percent. -/
def read_capacity (read : Nat) : ℚ :=
  (byteswap16 read : ℚ) / 256

/-- Result of one temperature read: the value handed back to the caller
and whether a report was sent to the error channel (`error(e)`). -/
structure TempResult where
  value : ℚ
  err_reported : Bool
  deriving DecidableEq, Repr

/-- `read_temperature` (src lines 144-154): parse an integer from the
file (`content = none` models a line `int(...)` rejects, raising
`ValueError`); a parsed value must satisfy `is_positive_int`, i.e. be
strictly positive, else an exception is raised.  Any exception is caught,
reported via `error(...)`, and `-1` is returned; otherwise the value is
divided by 1000 (true division). -/
def read_temperature (content : Option Int) : TempResult :=
  match content with
  | none => ⟨-1, true⟩
  | some t => if 0 < t then ⟨(t : ℚ) / 1000, false⟩ else ⟨-1, true⟩

/-- A Python runtime error that escapes a function. -/
inductive PyError where
  | unboundLocal (name : String)
  deriving DecidableEq, Repr

/-- One telemetry sample as returned by `get_params` (the wall-clock
timestamp string is presentation-only and omitted). -/
structure Sample where
  temperature : ℚ
  voltage : ℚ
  battery : ℚ
  deriving DecidableEq, Repr

/-- `get_params` (src lines 171-177).  The local variable `temperature`
is assigned only under `if temperature_fd is not None:`; the final
`return (temperature, voltage, battery, timestamp)` therefore raises
`UnboundLocalError` when the file descriptor is `None`.  The voltage and
capacity reads happen unconditionally before the `return` evaluates. -/
def get_params (temp_fd : Option (Option Int)) (volt_raw cap_raw : Nat) :
    Except PyError Sample :=
  let temperature : Option ℚ := temp_fd.map (fun c => (read_temperature c).value)
  let voltage := read_voltage volt_raw
  let battery := read_capacity cap_raw
  match temperature with
  | some t => Except.ok ⟨t, voltage, battery⟩
  | none => Except.error (PyError.unboundLocal "temperature")

/-- Boot-time warning printed by `battery_monitor` (src lines 185-187)
when the temperature file could not be opened; a warning only, the code
then proceeds into the monitor loop. -/
def temp_warning (temp_fd : Option (Option Int)) : List String :=
  match temp_fd with
  | none => ["[!] WARNING: Couldn't open /sys/class/thermal/thermal_zone0/temp"]
  | some _ => []

/-- Outcome of the Voltage Guard check. -/
inductive GuardResult where
  | Ok
  | Trigger
  deriving DecidableEq, Repr

/-- The Voltage Guard condition of the monitor loop (src line 204):
`if not flag_watch and (volt < min_voltage):` fires the emergency path
(`wall` broadcast + `do_shutdown`). -/
def voltage_guard (flag_watch : Bool) (volt min_voltage : ℚ) : GuardResult :=
  if flag_watch = false ∧ volt < min_voltage then GuardResult.Trigger
  else GuardResult.Ok

/-- A host power-state transition. -/
inductive PowerAction where
  | reboot
  | poweroff
  deriving DecidableEq, Repr

/-- `pwr_btn_released_callback` (src lines 266-268): on release, issue a
reboot unless the button's held predicate is satisfied; release after a
hold does nothing. -/
def pwr_btn_released_callback (is_held : Bool) : Option PowerAction :=
  if is_held = false then some PowerAction.reboot else none

/-- `pwr_btn_held_callback` (src lines 271-272): on the hold threshold
being crossed, issue a poweroff unconditionally (the button argument is
ignored). -/
def pwr_btn_held_callback (_is_held : Bool) : Option PowerAction :=
  some PowerAction.poweroff

/-- Observable steps of one iteration of the `battery_monitor` loop
(src lines 200-243), in program order. -/
inductive Event where
  | sample
  | guardEval (fired : Bool)
  | wallBroadcast
  | poweroff
  | ncursesDisplay
  | plainPrint
  | idleSleep
  deriving DecidableEq, Repr

/-- How one loop iteration ends. -/
inductive CycleExit where
  | next
  | quitKey
  | halted
  deriving DecidableEq, Repr

/-- One iteration of the `battery_monitor` loop (src lines 200-243):
acquire a sample via `get_params` (an escaping exception aborts the
loop), evaluate the voltage-guard condition — on firing, broadcast via
`wall` and call `do_shutdown()` (never returns) — then either sleep
quietly (`flag_quiet`), or render via ncurses and poll for the quit key,
or print plainly and sleep. -/
def monitor_cycle (flag_watch flag_quiet use_ncurses : Bool) (min_voltage : ℚ)
    (temp_fd : Option (Option Int)) (volt_raw cap_raw : Nat) (quit_key : Bool) :
    Except PyError (List Event × CycleExit) :=
  match get_params temp_fd volt_raw cap_raw with
  | Except.error e => Except.error e
  | Except.ok s =>
    match voltage_guard flag_watch s.voltage min_voltage with
    | GuardResult.Trigger =>
      Except.ok ([Event.sample, Event.guardEval true,
                  Event.wallBroadcast, Event.poweroff], CycleExit.halted)
    | GuardResult.Ok =>
      if flag_quiet then
        Except.ok ([Event.sample, Event.guardEval false, Event.idleSleep],
                   CycleExit.next)
      else if use_ncurses then
        Except.ok ([Event.sample, Event.guardEval false,
                    Event.ncursesDisplay, Event.idleSleep],
                   if quit_key then CycleExit.quitKey else CycleExit.next)
      else
        Except.ok ([Event.sample, Event.guardEval false,
                    Event.plainPrint, Event.idleSleep],
                   CycleExit.next)

/-- Python `int()` applied to a float: truncation toward zero. -/
def pyInt (q : ℚ) : Int :=
  if 0 ≤ q then Int.floor q else Int.ceil q

/-- Parsed command-line configuration (src lines 290-316; the
`pos_float` argument type guarantees `interval` and `min_voltage` are
positive, but positivity is carried as hypotheses where needed rather
than baked into the type). -/
structure Config where
  interval : ℚ
  min_voltage : ℚ
  flag_ncurses : Bool
  flag_quiet : Bool
  flag_watch : Bool
  deriving DecidableEq, Repr

/-- What `main` does after its startup checks: return an exit code
without running the monitor, or invoke `battery_monitor` with these
arguments. -/
inductive MainOutcome where
  | exitCode (code : Int)
  | monitor (update_interval : Int) (min_voltage : ℚ)
      (use_ncurses flag_quiet flag_watch : Bool)
  deriving DecidableEq, Repr

/-- Observable effects of `main` up to (and including) the decision
whether to enter the monitor loop. -/
structure MainResult where
  output : List String
  errors : List String
  gpio_setup : Bool
  callbacks_registered : Bool
  outcome : MainOutcome
  deriving DecidableEq, Repr

/-- Whether `main` reached the `battery_monitor` call. -/
def MainResult.entersMonitor (r : MainResult) : Bool :=
  match r.outcome with
  | MainOutcome.monitor _ _ _ _ _ => true
  | MainOutcome.exitCode _ => false

/-- `main` (src lines 289-345) after argument parsing: root check
(stderr report and exit `-1` if not root); if both `--watch` and
`--quiet` are set, print a notice and exit `0`; otherwise, when not in
watch-only mode, construct the GPIO devices, drive the power trigger
high and abort with exit `-1` (stderr report) if the power-button line
already reads high, else register the button/AC callbacks; finally warn
when `min_voltage < 3` (watch-only off) and call `battery_monitor` with
`int(interval * 1000)` milliseconds. -/
def main_fn (euid : Int) (cfg : Config) (pwr_button_value : Bool) : MainResult :=
  if euid ≠ 0 then
    ⟨[], ["[!] Error: Root privileges are needed to run this script."],
     false, false, MainOutcome.exitCode (-1)⟩
  else if cfg.flag_watch && cfg.flag_quiet then
    ⟨["[+] Both --watch and --quiet flags are set. Nothing to do."], [],
     false, false, MainOutcome.exitCode 0⟩
  else if !cfg.flag_watch && pwr_button_value then
    ⟨[], ["[!] Error: PWR_BUTTON is pulled high. Aborting..."],
     true, false, MainOutcome.exitCode (-1)⟩
  else
    ⟨(if !cfg.flag_watch && decide (cfg.min_voltage < 3) then
        ["[!] WARNING: min_voltage below 3V"] else []),
     [], !cfg.flag_watch, !cfg.flag_watch,
     MainOutcome.monitor (pyInt (cfg.interval * 1000)) cfg.min_voltage
       cfg.flag_ncurses cfg.flag_quiet cfg.flag_watch⟩

/-- Claim C1: the Voltage Guard fires `Trigger` exactly when watch-only
is off and the sampled voltage is strictly below the configured minimum;
in every other case — `v ≥ m` or watch-only on — it yields `Ok`, and in
particular the boundary `v = m` yields `Ok`. -/
theorem C1_voltage_guard_exact (w : Bool) (v m : ℚ) :
    (voltage_guard w v m = GuardResult.Trigger ↔ (w = false ∧ v < m)) ∧
    (voltage_guard w v m = GuardResult.Ok ↔ ¬(w = false ∧ v < m)) ∧
    voltage_guard w m m = GuardResult.Ok := by
  refine ⟨?_, ?_, ?_⟩ <;> unfold voltage_guard
  · split <;> simp_all
  · split <;> simp_all
  · split <;> simp_all

/-- Concrete instance of `C1_voltage_guard_exact`: at the boundary
voltage 3.5 = min_voltage 3.5 the guard yields `Ok`. -/
theorem C1_witness : voltage_guard false (7/2) (7/2) = GuardResult.Ok :=
  (C1_voltage_guard_exact false (7/2) (7/2)).2.2

/-- Claim C5: on release with the held predicate unsatisfied a reboot is
issued; on release after a hold nothing happens; the hold callback
issues a poweroff unconditionally. -/
theorem C5_button_callbacks (b : Bool) :
    pwr_btn_released_callback false = some PowerAction.reboot ∧
    pwr_btn_released_callback true = none ∧
    pwr_btn_held_callback b = some PowerAction.poweroff := by
  refine ⟨rfl, ?_, rfl⟩
  simp [pwr_btn_released_callback]

/-- Claim C2 (code bug): the boot-time warning is printed when the
temperature file cannot be opened and execution proceeds, but the very
first `get_params` call with a `None` file descriptor then raises
`UnboundLocalError` (the local `temperature` was never assigned), so no
sample with an absent temperature is ever produced — the monitor loop
aborts instead of continuing with valid voltage/charge. -/
theorem C2_get_params_crash :
    temp_warning none =
      ["[!] WARNING: Couldn't open /sys/class/thermal/thermal_zone0/temp"] ∧
    (∀ volt_raw cap_raw : Nat,
      get_params none volt_raw cap_raw =
        Except.error (PyError.unboundLocal "temperature")) := by
  exact ⟨rfl, fun _ _ => rfl⟩

/-- Claim C3 as stated is false on its charge half: the charge
conversion applied to raw register 0x0100 byte-swaps to 1 and yields
1/256 percent, not 100 percent. -/
theorem C3_counterexample : read_capacity 256 ≠ 100 := by
  norm_num [read_capacity, byteswap16]

/-- Claim C3 (amended): the conversions are exact — the charge
conversion yields 1/256 percent at raw register 0x0100 and exactly
100 percent at raw register 0x0064 (which byte-swaps to 25600); the
voltage conversion applied to the byte-swapped value 1280 (raw register
0x0005) yields exactly 1280 * 1.25 / 1000 / 16 = 0.1 volts. -/
theorem C3_conversions_exact :
    read_capacity 256 = 1 / 256 ∧
    byteswap16 100 = 25600 ∧
    read_capacity 100 = 100 ∧
    byteswap16 5 = 1280 ∧
    read_voltage 5 = 1 / 10 := by
  refine ⟨?_, rfl, ?_, rfl, ?_⟩ <;> norm_num [read_capacity, read_voltage, byteswap16]

/-- Claim C4: a malformed temperature read (unparseable line or
non-positive value) is reported to the error channel and yields the
sentinel -1; a well-formed positive millidegree value t yields t / 1000
unreported; and whatever the file content, `get_params` still returns a
complete sample carrying the voltage and charge conversions — the loop
is not aborted by a malformed read. -/
theorem C4_read_temperature (t : Int) (c : Option Int) (volt_raw cap_raw : Nat) :
    (0 < t → read_temperature (some t) = ⟨(t : ℚ) / 1000, false⟩) ∧
    (t ≤ 0 → read_temperature (some t) = ⟨-1, true⟩) ∧
    read_temperature none = ⟨-1, true⟩ ∧
    get_params (some c) volt_raw cap_raw =
      Except.ok ⟨(read_temperature c).value, read_voltage volt_raw,
                 read_capacity cap_raw⟩ := by
  refine ⟨fun ht => ?_, fun ht => ?_, rfl, rfl⟩
  · simp [read_temperature, ht]
  · simp [read_temperature, not_lt.mpr ht]

/-- Concrete instance of `C4_read_temperature`: 42000 millidegrees reads
as 42 degrees unreported, and the non-positive value -5 yields the
reported sentinel. -/
theorem C4_witness :
    read_temperature (some 42000) = ⟨(42000 : ℚ) / 1000, false⟩ ∧
    read_temperature (some (-5)) = ⟨-1, true⟩ :=
  ⟨(C4_read_temperature 42000 none 0 0).1 (by norm_num),
   (C4_read_temperature (-5) none 0 0).2.1 (by norm_num)⟩

/-- Claim C6: when the power-button line already reads logically pressed
at startup (watch-only off), `main` reports a fatal wiring error on
stderr and returns -1 without ever reaching the monitor loop, whatever
the remaining configuration. -/
theorem C6_wiring_fault_refuses_start (i m : ℚ) (nc q : Bool) :
    (main_fn 0 ⟨i, m, nc, q, false⟩ true).outcome = MainOutcome.exitCode (-1) ∧
    (main_fn 0 ⟨i, m, nc, q, false⟩ true).errors =
      ["[!] Error: PWR_BUTTON is pulled high. Aborting..."] ∧
    (main_fn 0 ⟨i, m, nc, q, false⟩ true).entersMonitor = false := by
  refine ⟨?_, ?_, ?_⟩ <;> simp [main_fn, MainResult.entersMonitor]

/-- Claim C7 as stated is false on its zero-output half: with
watch=true and quiet=true the program prints an informational notice
before exiting, so its output is not empty. -/
theorem C7_counterexample :
    (main_fn 0 ⟨2, 7/2, false, true, true⟩ false).output ≠ [] := by
  simp [main_fn]

/-- Claim C7 (amended): with watch=true and quiet=true the program
performs no actuation (no GPIO setup, no callbacks) and exits
immediately with code 0 before the monitor loop — so the Voltage
Guard's trigger path (emergency broadcast and poweroff) is never
invoked — but its output is exactly one informational notice rather
than empty. -/
theorem C7_watch_quiet_noop (i m : ℚ) (nc bv : Bool) :
    main_fn 0 ⟨i, m, nc, true, true⟩ bv =
      ⟨["[+] Both --watch and --quiet flags are set. Nothing to do."], [],
       false, false, MainOutcome.exitCode 0⟩ := by
  simp [main_fn]

/-- Claim C8: in any completed iteration of the monitor loop, the first
two events are always the telemetry sample and the voltage-guard
evaluation — so the guard is evaluated before any display or output
step of that cycle — and when the guard fires, the remainder of the
cycle is exactly the emergency broadcast followed by poweroff, with no
display update at all. -/
theorem C8_guard_before_display (fw fq nc : Bool) (m : ℚ)
    (tf : Option (Option Int)) (vr cr : Nat) (qk : Bool)
    (tr : List Event) (ex : CycleExit)
    (h : monitor_cycle fw fq nc m tf vr cr qk = Except.ok (tr, ex)) :
    ∃ fired rest, tr = Event.sample :: Event.guardEval fired :: rest ∧
      (fired = true →
        rest = [Event.wallBroadcast, Event.poweroff] ∧ ex = CycleExit.halted) := by
  unfold monitor_cycle at h
  split at h
  · exact absurd h (by simp)
  · split at h
    · obtain ⟨h1, h2⟩ := Prod.mk.injEq .. ▸ Except.ok.inj h
      exact ⟨true, [Event.wallBroadcast, Event.poweroff], h1.symm,
             fun _ => ⟨rfl, h2.symm⟩⟩
    · split at h
      · obtain ⟨h1, _⟩ := Prod.mk.injEq .. ▸ Except.ok.inj h
        exact ⟨false, [Event.idleSleep], h1.symm, by simp⟩
      · split at h
        · obtain ⟨h1, _⟩ := Prod.mk.injEq .. ▸ Except.ok.inj h
          exact ⟨false, [Event.ncursesDisplay, Event.idleSleep], h1.symm, by simp⟩
        · obtain ⟨h1, _⟩ := Prod.mk.injEq .. ▸ Except.ok.inj h
          exact ⟨false, [Event.plainPrint, Event.idleSleep], h1.symm, by simp⟩

/-- Concrete instance of `C8_guard_before_display`: a cycle whose
voltage 0.1 V is below the 4 V threshold samples, evaluates the guard,
then broadcasts and powers off. -/
theorem C8_witness :
    ∃ fired rest,
      [Event.sample, Event.guardEval true, Event.wallBroadcast, Event.poweroff]
        = Event.sample :: Event.guardEval fired :: rest ∧
      (fired = true →
        rest = [Event.wallBroadcast, Event.poweroff] ∧
        CycleExit.halted = CycleExit.halted) :=
  C8_guard_before_display false true false 4 (some (some 50000)) 5 0 false
    [Event.sample, Event.guardEval true, Event.wallBroadcast, Event.poweroff]
    CycleExit.halted (by
      simp [monitor_cycle, get_params, voltage_guard, read_voltage,
            read_temperature, read_capacity, byteswap16]
      norm_num)

/-- Claim C9 as stated is false on its enters-the-loop half: with
watch-only enabled together with quiet, `main` returns 0 before the
monitor loop, so the loop is not entered even though no GPIO setup or
wiring-fault check happened. -/
theorem C9_counterexample :
    (main_fn 0 ⟨2, 7/2, false, true, true⟩ true).entersMonitor = false := by
  simp [main_fn, MainResult.entersMonitor]

/-- Claim C9 (amended): with watch-only enabled, no GPIO setup is
performed, no callbacks are registered and no wiring-fault error is
reported whatever the button line reads; when quiet is not also set the
monitor enters the loop even with the button line reading pressed,
while with quiet also set the program exits cleanly before the loop. -/
theorem C9_watch_skips_gpio (i m : ℚ) (nc q bv : Bool) :
    (main_fn 0 ⟨i, m, nc, q, true⟩ bv).gpio_setup = false ∧
    (main_fn 0 ⟨i, m, nc, q, true⟩ bv).callbacks_registered = false ∧
    (main_fn 0 ⟨i, m, nc, q, true⟩ bv).errors = [] ∧
    (main_fn 0 ⟨i, m, nc, false, true⟩ bv).entersMonitor = true := by
  cases q <;>
    refine ⟨?_, ?_, ?_, ?_⟩ <;> simp [main_fn, MainResult.entersMonitor]

/-- Claim C10: with watch-only disabled and 0 < min_voltage < 3 (root,
button line low), `main` prints the low-threshold warning yet still
invokes the monitor loop with that min_voltage as the shutdown
threshold. -/
theorem C10_low_threshold_warns (i m : ℚ) (nc q : Bool)
    (_h0 : 0 < m) (h3 : m < 3) :
    (main_fn 0 ⟨i, m, nc, q, false⟩ false).output =
      ["[!] WARNING: min_voltage below 3V"] ∧
    (main_fn 0 ⟨i, m, nc, q, false⟩ false).outcome =
      MainOutcome.monitor (pyInt (i * 1000)) m nc q false := by
  constructor <;> simp [main_fn, h3]

/-- Concrete instance of `C10_low_threshold_warns` at min_voltage 2. -/
theorem C10_witness :
    (main_fn 0 ⟨2, 2, false, false, false⟩ false).output =
      ["[!] WARNING: min_voltage below 3V"] ∧
    (main_fn 0 ⟨2, 2, false, false, false⟩ false).outcome =
      MainOutcome.monitor (pyInt (2 * 1000)) 2 false false false :=
  C10_low_threshold_warns 2 2 false false (by norm_num) (by norm_num)
